import Mathlib

/-!
Verification of the `sign` subcommand core of the parsec-tool repository
(`src/subcommands/sign.rs`).

The embedding models:
* the PSA algorithm descriptors (`Algorithm`, `AsymmetricSignature`,
  `SignHash`, `Hash`) from the `parsec_client` interface enums used by the
  source;
* the hash dispatch `hash_data` and the hash-requirement match inside
  `Sign::run`;
* the SHA-2 family (SHA-224/256/384/512), modelled from the spec / FIPS 180-4
  since the `sha2` crate is an external collaborator of the repository;
* the ASN.1 DER re-encoding of an ECC signature into a two-integer sequence
  (`EccSignature { r, s }`), with `IntegerAsn1::from_bytes_be_unsigned` and the
  `picky_asn1_der::to_bytes` buffer behaviour modelled from the spec since the
  `picky` crates are external;
* base64 (standard alphabet, padded), modelled from the spec since the
  `base64` crate is external;
* the orchestration `Sign::run` itself, with the two external collaborators
  (key-attribute lookup, remote signing call) injected as parameters, and a
  trace recording digest invocations, signing invocations and stdout lines.

Bytes are `Nat` with the invariant `< 256` carried as hypotheses where it
matters; machine words are `Nat` reduced modulo `2^32` / `2^64`.
-/

namespace ParsecSign

/-- The PSA hash-algorithm enumeration (`psa_algorithm::Hash`). -/
inductive Hash where
  | md2 | md4 | md5 | ripemd160 | sha1
  | sha224 | sha256 | sha384 | sha512
  | sha512_224 | sha512_256
  | sha3_224 | sha3_256 | sha3_384 | sha3_512
  deriving DecidableEq, Repr

/-- The PSA sign-hash field (`psa_algorithm::SignHash`): either a wildcard
(`Any`) or a specific hash. -/
inductive SignHash where
  | any
  | specific (h : Hash)
  deriving DecidableEq, Repr

/-- The PSA asymmetric-signature algorithm enumeration
(`psa_algorithm::AsymmetricSignature`). -/
inductive AsymmetricSignature where
  | rsaPkcs1v15Sign (hashAlg : SignHash)
  | rsaPkcs1v15SignRaw
  | rsaPss (hashAlg : SignHash)
  | ecdsa (hashAlg : SignHash)
  | ecdsaAny
  | deterministicEcdsa (hashAlg : SignHash)
  deriving DecidableEq, Repr

/-- `AsymmetricSignature::hash()`: the optional sign-hash field of the
variant. -/
def AsymmetricSignature.hash : AsymmetricSignature → Option SignHash
  | .rsaPkcs1v15Sign h => some h
  | .rsaPkcs1v15SignRaw => none
  | .rsaPss h => some h
  | .ecdsa h => some h
  | .ecdsaAny => none
  | .deterministicEcdsa h => some h

/-- `AsymmetricSignature::is_ecc_alg()`: true exactly for the elliptic-curve
variants. -/
def AsymmetricSignature.isEccAlg : AsymmetricSignature → Bool
  | .ecdsa _ => true
  | .ecdsaAny => true
  | .deterministicEcdsa _ => true
  | _ => false

/-- The PSA algorithm families (`psa_algorithm::Algorithm`).  Only the
asymmetric-signature family carries a payload the core inspects; the other
families are only ever matched by the catch-all `WrongKeyAlgorithm` branch. -/
inductive Algorithm where
  | none
  | hash (h : Hash)
  | mac
  | cipher
  | aead
  | asymmetricSignature (a : AsymmetricSignature)
  | asymmetricEncryption
  | keyAgreement
  | keyDerivation
  | raw
  deriving DecidableEq, Repr

/-- Error kinds surfaced by the core (`ToolErrorKind` plus propagated
collaborator failures). -/
inductive SignError where
  | notSupported
  | wrongKeyAlgorithm
  | serviceError
  deriving DecidableEq, Repr

/-! ## SHA-2, modelled from the spec (FIPS 180-4).

Modelled from the spec: the digest computations dispatched to by `hash_data`
live in the external `sha2` crate, which is not part of this repository; they
are reproduced here from the standard they implement. -/

/-- Reduce to a 32-bit word. -/
def w32 (n : Nat) : Nat := n % (2 ^ 32)

/-- Reduce to a 64-bit word. -/
def w64 (n : Nat) : Nat := n % (2 ^ 64)

/-- Right-rotation of a 32-bit word. -/
def rotr32 (n x : Nat) : Nat := w32 ((x >>> n) ||| (x <<< (32 - n)))

/-- Right-rotation of a 64-bit word. -/
def rotr64 (n x : Nat) : Nat := w64 ((x >>> n) ||| (x <<< (64 - n)))

/-- SHA-256 big Σ₀. -/
def bSig0x (x : Nat) : Nat := rotr32 2 x ^^^ rotr32 13 x ^^^ rotr32 22 x

/-- SHA-256 big Σ₁. -/
def bSig1x (x : Nat) : Nat := rotr32 6 x ^^^ rotr32 11 x ^^^ rotr32 25 x

/-- SHA-256 small σ₀. -/
def sSig0x (x : Nat) : Nat := rotr32 7 x ^^^ rotr32 18 x ^^^ (x >>> 3)

/-- SHA-256 small σ₁. -/
def sSig1x (x : Nat) : Nat := rotr32 17 x ^^^ rotr32 19 x ^^^ (x >>> 10)

/-- SHA-512 big Σ₀. -/
def bSig0q (x : Nat) : Nat := rotr64 28 x ^^^ rotr64 34 x ^^^ rotr64 39 x

/-- SHA-512 big Σ₁. -/
def bSig1q (x : Nat) : Nat := rotr64 14 x ^^^ rotr64 18 x ^^^ rotr64 41 x

/-- SHA-512 small σ₀. -/
def sSig0q (x : Nat) : Nat := rotr64 1 x ^^^ rotr64 8 x ^^^ (x >>> 7)

/-- SHA-512 small σ₁. -/
def sSig1q (x : Nat) : Nat := rotr64 19 x ^^^ rotr64 61 x ^^^ (x >>> 6)

/-- Choice function, on 32-bit words. -/
def ch32 (e f g : Nat) : Nat := (e &&& f) ^^^ ((e ^^^ 0xffffffff) &&& g)

/-- Majority function (word-size agnostic). -/
def maj (a b c : Nat) : Nat := (a &&& b) ^^^ (a &&& c) ^^^ (b &&& c)

/-- Choice function, on 64-bit words. -/
def ch64 (e f g : Nat) : Nat := (e &&& f) ^^^ ((e ^^^ 0xffffffffffffffff) &&& g)

/-- The eight working registers of a SHA-2 compression state. -/
structure Hs where
  a : Nat
  b : Nat
  c : Nat
  d : Nat
  e : Nat
  f : Nat
  g : Nat
  h : Nat
  deriving DecidableEq, Repr

/-- The registers as a list, in output order. -/
def hsWords (r : Hs) : List Nat := [r.a, r.b, r.c, r.d, r.e, r.f, r.g, r.h]

/-- Big-endian serialization of a word into `len` bytes. -/
def toBytesBE (len w : Nat) : List Nat :=
  (List.range len).map (fun i => (w >>> (8 * (len - 1 - i))) &&& 0xff)

/-- Big-endian value of a byte string. -/
def fromBytesBE (l : List Nat) : Nat := l.foldl (fun acc b => acc * 256 + b) 0

/-- Fuel-driven chunking helper. -/
def chunksGo (n : Nat) : Nat → List α → List (List α)
  | 0, _ => []
  | _ + 1, [] => []
  | fuel + 1, l => l.take n :: chunksGo n fuel (l.drop n)

/-- Split a list into consecutive chunks of `n` elements (last chunk may be
shorter). -/
def chunks (n : Nat) (l : List α) : List (List α) := chunksGo n l.length l

/-- Group a byte string into big-endian words of `wlen` bytes. -/
def toWordsBE (wlen : Nat) (bytes : List Nat) : List Nat :=
  (chunks wlen bytes).map fromBytesBE

/-- FIPS 180-4 message padding: append `0x80`, zero bytes up to congruence
`blockLen - lenLen (mod blockLen)`, then the bit length on `lenLen` bytes. -/
def sha2pad (blockLen lenLen : Nat) (msg : List Nat) : List Nat :=
  let target := blockLen - lenLen
  let k := (target + blockLen - (msg.length + 1) % blockLen) % blockLen
  msg ++ [0x80] ++ List.replicate k 0 ++ toBytesBE lenLen (8 * msg.length)

/-- One SHA-256 compression round, consuming a (constant, schedule-word)
pair. -/
def round32 (r : Hs) (kw : Nat × Nat) : Hs :=
  let t1 := w32 (r.h + bSig1x r.e + ch32 r.e r.f r.g + kw.1 + kw.2)
  let t2 := w32 (bSig0x r.a + maj r.a r.b r.c)
  ⟨w32 (t1 + t2), r.a, r.b, r.c, w32 (r.d + t1), r.e, r.f, r.g⟩

/-- One SHA-512 compression round. -/
def round64 (r : Hs) (kw : Nat × Nat) : Hs :=
  let t1 := w64 (r.h + bSig1q r.e + ch64 r.e r.f r.g + kw.1 + kw.2)
  let t2 := w64 (bSig0q r.a + maj r.a r.b r.c)
  ⟨w64 (t1 + t2), r.a, r.b, r.c, w64 (r.d + t1), r.e, r.f, r.g⟩

/-- Extend sixteen 32-bit message words to the 64-word SHA-256 schedule. -/
def extendW32 (w0 : List Nat) : List Nat :=
  (List.range 48).foldl (fun w t =>
    w ++ [w32 (sSig1x (w.getD (t + 14) 0) + w.getD (t + 9) 0 +
               sSig0x (w.getD (t + 1) 0) + w.getD t 0)]) w0

/-- Extend sixteen 64-bit message words to the 80-word SHA-512 schedule. -/
def extendW64 (w0 : List Nat) : List Nat :=
  (List.range 64).foldl (fun w t =>
    w ++ [w64 (sSig1q (w.getD (t + 14) 0) + w.getD (t + 9) 0 +
               sSig0q (w.getD (t + 1) 0) + w.getD t 0)]) w0

/-- Componentwise 32-bit addition of register files. -/
def addHs32 (x y : Hs) : Hs :=
  ⟨w32 (x.a + y.a), w32 (x.b + y.b), w32 (x.c + y.c), w32 (x.d + y.d),
   w32 (x.e + y.e), w32 (x.f + y.f), w32 (x.g + y.g), w32 (x.h + y.h)⟩

/-- Componentwise 64-bit addition of register files. -/
def addHs64 (x y : Hs) : Hs :=
  ⟨w64 (x.a + y.a), w64 (x.b + y.b), w64 (x.c + y.c), w64 (x.d + y.d),
   w64 (x.e + y.e), w64 (x.f + y.f), w64 (x.g + y.g), w64 (x.h + y.h)⟩

/-- The SHA-256 round constants. -/
def K256 : List Nat :=
  [1116352408, 1899447441, 3049323471, 3921009573,
   961987163, 1508970993, 2453635748, 2870763221,
   3624381080, 310598401, 607225278, 1426881987,
   1925078388, 2162078206, 2614888103, 3248222580,
   3835390401, 4022224774, 264347078, 604807628,
   770255983, 1249150122, 1555081692, 1996064986,
   2554220882, 2821834349, 2952996808, 3210313671,
   3336571891, 3584528711, 113926993, 338241895,
   666307205, 773529912, 1294757372, 1396182291,
   1695183700, 1986661051, 2177026350, 2456956037,
   2730485921, 2820302411, 3259730800, 3345764771,
   3516065817, 3600352804, 4094571909, 275423344,
   430227734, 506948616, 659060556, 883997877,
   958139571, 1322822218, 1537002063, 1747873779,
   1955562222, 2024104815, 2227730452, 2361852424,
   2428436474, 2756734187, 3204031479, 3329325298]

/-- The SHA-512 round constants. -/
def K512 : List Nat :=
  [4794697086780616226, 8158064640168781261, 13096744586834688815,
   16840607885511220156, 4131703408338449720, 6480981068601479193,
   10538285296894168987, 12329834152419229976, 15566598209576043074,
   1334009975649890238, 2608012711638119052, 6128411473006802146,
   8268148722764581231, 9286055187155687089, 11230858885718282805,
   13951009754708518548, 16472876342353939154, 17275323862435702243,
   1135362057144423861, 2597628984639134821, 3308224258029322869,
   5365058923640841347, 6679025012923562964, 8573033837759648693,
   10970295158949994411, 12119686244451234320, 12683024718118986047,
   13788192230050041572, 14330467153632333762, 15395433587784984357,
   489312712824947311, 1452737877330783856, 2861767655752347644,
   3322285676063803686, 5560940570517711597, 5996557281743188959,
   7280758554555802590, 8532644243296465576, 9350256976987008742,
   10552545826968843579, 11727347734174303076, 12113106623233404929,
   14000437183269869457, 14369950271660146224, 15101387698204529176,
   15463397548674623760, 17586052441742319658, 1182934255886127544,
   1847814050463011016, 2177327727835720531, 2830643537854262169,
   3796741975233480872, 4115178125766777443, 5681478168544905931,
   6601373596472566643, 7507060721942968483, 8399075790359081724,
   8693463985226723168, 9568029438360202098, 10144078919501101548,
   10430055236837252648, 11840083180663258601, 13761210420658862357,
   14299343276471374635, 14566680578165727644, 15097957966210449927,
   16922976911328602910, 17689382322260857208, 500013540394364858,
   748580250866718886, 1242879168328830382, 1977374033974150939,
   2944078676154940804, 3659926193048069267, 4368137639120453308,
   4836135668995329356, 5532061633213252278, 6448918945643986474,
   6902733635092675308, 7801388544844847127]

/-- SHA-256 initial hash value. -/
def H256 : Hs :=
  ⟨1779033703, 3144134277, 1013904242, 2773480762,
   1359893119, 2600822924, 528734635, 1541459225⟩

/-- SHA-224 initial hash value. -/
def H224 : Hs :=
  ⟨3238371032, 914150663, 812702999, 4144912697,
   4290775857, 1750603025, 1694076839, 3204075428⟩

/-- SHA-512 initial hash value. -/
def H512 : Hs :=
  ⟨7640891576956012808, 13503953896175478587,
   4354685564936845355, 11912009170470909681,
   5840696475078001361, 11170449401992604703,
   2270897969802886507, 6620516959819538809⟩

/-- SHA-384 initial hash value. -/
def H384 : Hs :=
  ⟨14680500436340154072, 7105036623409894663,
   10473403895298186519, 1526699215303891257,
   7436329637833083697, 10282925794625328401,
   15784041429090275239, 5167115440072839076⟩

/-- The SHA-256 compression pipeline from an initial state (shared by SHA-224
and SHA-256). -/
def sha256core (h0 : Hs) (msg : List Nat) : Hs :=
  (chunks 64 (sha2pad 64 8 msg)).foldl
    (fun h block => addHs32 h ((K256.zip (extendW32 (toWordsBE 4 block))).foldl round32 h))
    h0

/-- The SHA-512 compression pipeline from an initial state (shared by SHA-384
and SHA-512). -/
def sha512core (h0 : Hs) (msg : List Nat) : Hs :=
  (chunks 128 (sha2pad 128 16 msg)).foldl
    (fun h block => addHs64 h ((K512.zip (extendW64 (toWordsBE 8 block))).foldl round64 h))
    h0

/-- SHA-256 digest of a byte string. -/
def sha256 (msg : List Nat) : List Nat :=
  (hsWords (sha256core H256 msg)).flatMap (toBytesBE 4)

/-- SHA-224 digest of a byte string (first seven output words). -/
def sha224 (msg : List Nat) : List Nat :=
  ((hsWords (sha256core H224 msg)).take 7).flatMap (toBytesBE 4)

/-- SHA-512 digest of a byte string. -/
def sha512 (msg : List Nat) : List Nat :=
  (hsWords (sha512core H512 msg)).flatMap (toBytesBE 8)

/-- SHA-384 digest of a byte string (first six output words). -/
def sha384 (msg : List Nat) : List Nat :=
  ((hsWords (sha512core H384 msg)).take 6).flatMap (toBytesBE 8)

/-! ## The hash dispatch (`hash_data`, sign.rs lines 90–103). -/

/-- `hash_data(data, alg)`: dispatch on the hash tag, returning the digest, or
`NotSupported` for any tag outside the four supported SHA-2 variants.  The
second component counts how many times a digest computation
(`hasher.update`/`finalize`) was actually invoked on the message. -/
def hash_data (data : List Nat) (alg : Hash) : Except SignError (List Nat) × Nat :=
  match alg with
  | .sha224 => (.ok (sha224 data), 1)
  | .sha256 => (.ok (sha256 data), 1)
  | .sha384 => (.ok (sha384 data), 1)
  | .sha512 => (.ok (sha512 data), 1)
  | _ => (.error .notSupported, 0)

/-- The hash-requirement step of `Sign::run` (lines 48–54) composed with
`hash_data`: only `Some(SignHash::Specific(hash))` reaches `hash_data`; a
wildcard (`SignHash::Any`) or absent hash requirement is rejected with
`NotSupported` without any digest invocation. -/
def computeDigest (data : List Nat) (req : Option SignHash) :
    Except SignError (List Nat) × Nat :=
  match req with
  | some (.specific h) => hash_data data h
  | _ => (.error .notSupported, 0)

/-- The four hash algorithms `hash_data` supports. -/
def supportedHashes : List Hash := [.sha224, .sha256, .sha384, .sha512]

/-! ## ASN.1 DER re-encoding of an ECC signature.

Modelled from the spec: `IntegerAsn1::from_bytes_be_unsigned` and the
`picky_asn1_der` serializer live in the external `picky` crates; they are
reproduced here from the spec's description of the wire format (a DER
`SEQUENCE` of two `INTEGER`s, each the unsigned big-endian magnitude with a
leading zero byte inserted when the high bit of the first content byte is
set). -/

/-- Minimal big-endian byte representation of a natural number (empty for
zero); fuel-driven so that it evaluates by kernel reduction. -/
def natToBytesBEGo : Nat → Nat → List Nat
  | 0, _ => []
  | _ + 1, 0 => []
  | fuel + 1, n => natToBytesBEGo fuel (n / 256) ++ [n % 256]

/-- Minimal big-endian byte representation of a natural number. -/
def natToBytesBE (n : Nat) : List Nat := natToBytesBEGo n n

/-- DER definite-length encoding: short form below 128, long form above. -/
def derLen (n : Nat) : List Nat :=
  if n < 128 then [n] else (128 + (natToBytesBE n).length) :: natToBytesBE n

/-- `IntegerAsn1::from_bytes_be_unsigned`: prepend a zero byte when the high
bit of the leading byte is set, so the content is not misread as negative. -/
def from_bytes_be_unsigned (b : List Nat) : List Nat :=
  match b with
  | [] => []
  | x :: _ => if 128 ≤ x then 0 :: b else b

/-- DER `INTEGER` with the given content octets. -/
def derInt (content : List Nat) : List Nat :=
  2 :: derLen content.length ++ content

/-- DER `SEQUENCE` of the two integers of an `EccSignature { r, s }`. -/
def derEcc (r s : List Nat) : List Nat :=
  let body := derInt r ++ derInt s
  0x30 :: derLen body.length ++ body

/-- The re-encoding built by `Sign::run` (lines 59–65): split the raw
signature at `sig.len() / 2`, wrap each half as an unsigned ASN.1 integer and
serialize the two-element sequence. -/
def derEncodeEcc (sig : List Nat) : List Nat :=
  derEcc (from_bytes_be_unsigned (sig.take (sig.length / 2)))
         (from_bytes_be_unsigned (sig.drop (sig.length / 2)))

/-- `picky_asn1_der::to_bytes(&value, &mut buffer)`: serialization into a
fixed scratch buffer succeeds exactly when the encoding fits (the code then
truncates the buffer to the written size). -/
def toBytesBuf (bufLen : Nat) (enc : List Nat) : Option (List Nat) :=
  if enc.length ≤ bufLen then some enc else none

/-- DER length decoder: returns the decoded length and the remaining bytes. -/
def parseLen : List Nat → Option (Nat × List Nat)
  | [] => none
  | b :: rest =>
    if b < 128 then some (b, rest)
    else if b = 128 then none
    else if rest.length < b - 128 then none
    else some (fromBytesBE (rest.take (b - 128)), rest.drop (b - 128))

/-- DER `INTEGER` decoder: returns the content octets and the remaining
bytes. -/
def parseInt : List Nat → Option (List Nat × List Nat)
  | 2 :: rest =>
    match parseLen rest with
    | some (l, rest2) =>
      if l ≤ rest2.length then some (rest2.take l, rest2.drop l) else none
    | Option.none => none
  | _ => none

/-- Decoder for the two-integer DER sequence: recovers the content octets of
`r` and `s`, rejecting trailing garbage. -/
def decodeEcc (bytes : List Nat) : Option (List Nat × List Nat) :=
  match bytes with
  | 48 :: rest =>
    match parseLen rest with
    | some (l, rest2) =>
      if l ≤ rest2.length then
        match parseInt (rest2.take l) with
        | some (r, rem) =>
          match parseInt rem with
          | some (s, rem2) =>
            if rem2 = [] ∧ rest2.drop l = [] then some (r, s) else none
          | Option.none => none
        | Option.none => none
      else none
    | Option.none => none
  | _ => none

/-! ## Base64 and the orchestration `Sign::run`. -/

/-- The standard base64 alphabet.  Modelled from the spec: `base64::encode`
is an external crate; the spec fixes the standard alphabet with padding. -/
def b64chars : List Char :=
  "ABCDEFGHIJKLMNOPQRSTUVWXYZabcdefghijklmnopqrstuvwxyz0123456789+/".toList

/-- Character of a 6-bit group. -/
def b64char (n : Nat) : Char := b64chars.getD n 'A'

/-- Standard padded base64 encoding of a byte string. -/
def b64encode : List Nat → List Char
  | [] => []
  | [a] => [b64char (a / 4), b64char (a % 4 * 16), '=', '=']
  | [a, b] => [b64char (a / 4), b64char (a % 4 * 16 + b / 16), b64char (b % 16 * 4), '=']
  | a :: b :: c :: rest =>
    b64char (a / 4) :: b64char (a % 4 * 16 + b / 16) ::
    b64char (b % 16 * 4 + c / 64) :: b64char (c % 64) :: b64encode rest

/-- The final state of one `Sign::run` invocation. -/
inductive Outcome where
  | ok (sig : List Nat)
  | err (e : SignError)
  | panic
  deriving DecidableEq, Repr

/-- Observable trace of one invocation: digest invocations, signing-service
invocations, and the lines printed to standard output. -/
structure RunTrace where
  hashCalls : Nat
  signCalls : Nat
  stdout : List (List Char)
  deriving DecidableEq, Repr

/-- The conditional post-processing step of `Sign::run` (lines 57–68): the
raw signature is re-encoded exactly when the algorithm is elliptic-curve and
ASN.1 encoding was requested; `none` models the `to_bytes` failure the code
`unwrap`s. -/
def postProcess (a : AsymmetricSignature) (encodeAsn1 : Bool) (sig : List Nat) :
    Option (List Nat) :=
  if a.isEccAlg && encodeAsn1 then toBytesBuf 1000 (derEncodeEcc sig) else some sig

/-- `Sign::run` (lines 39–88) with the two external collaborators injected:
`attrRes` is the result of the key-attribute lookup (its `permitted_algorithms`
field) and `signer` is the remote `psa_sign_hash` call as a function of the
digest.  Returns the outcome together with the observable trace. -/
def signRun (attrRes : Except SignError Algorithm)
    (signer : List Nat → Except SignError (List Nat))
    (inputData : List Nat) (encodeAsn1 : Bool) : Outcome × RunTrace :=
  match attrRes with
  | .error _ => (.err .serviceError, ⟨0, 0, []⟩)
  | .ok (.asymmetricSignature a) =>
    match computeDigest inputData a.hash with
    | (.error e, hc) => (.err e, ⟨hc, 0, []⟩)
    | (.ok dg, hc) =>
      match signer dg with
      | .error _ => (.err .serviceError, ⟨hc, 1, []⟩)
      | .ok sig =>
        match postProcess a encodeAsn1 sig with
        | Option.none => (.panic, ⟨hc, 1, []⟩)
        | some finalSig => (.ok finalSig, ⟨hc, 1, [b64encode finalSig]⟩)
  | .ok _ => (.err .wrongKeyAlgorithm, ⟨0, 0, []⟩)

/-! ## Helper lemmas. -/

theorem toBytesBE_length (n w : Nat) : (toBytesBE n w).length = n := by
  simp [toBytesBE]

theorem length_flatMap_toBytesBE (n : Nat) (l : List Nat) :
    (l.flatMap (toBytesBE n)).length = n * l.length := by
  induction l with
  | nil => simp
  | cons x xs ih => simp [List.flatMap_cons, toBytesBE_length, ih]; ring

theorem fromBytesBE_append_one (xs : List Nat) (b : Nat) :
    fromBytesBE (xs ++ [b]) = 256 * fromBytesBE xs + b := by
  simp [fromBytesBE, List.foldl_append]; ring

theorem fromBytesBE_natToBytesBEGo :
    ∀ (fuel n : Nat), n ≤ fuel → fromBytesBE (natToBytesBEGo fuel n) = n := by
  intro fuel
  induction fuel with
  | zero =>
    intro n h
    have : n = 0 := Nat.le_zero.mp h
    subst this; rfl
  | succ f ih =>
    intro n h
    match n with
    | 0 => rfl
    | m + 1 =>
      have hlt : (m + 1) / 256 < m + 1 := Nat.div_lt_self (Nat.succ_pos m) (by norm_num)
      have hd : (m + 1) / 256 ≤ f := by omega
      show fromBytesBE (natToBytesBEGo f ((m + 1) / 256) ++ [(m + 1) % 256]) = m + 1
      rw [fromBytesBE_append_one, ih _ hd]
      omega

theorem fromBytesBE_natToBytesBE (n : Nat) :
    fromBytesBE (natToBytesBE n) = n :=
  fromBytesBE_natToBytesBEGo n n (Nat.le_refl n)

theorem natToBytesBE_ne_nil (n : Nat) (h : n ≠ 0) : natToBytesBE n ≠ [] := by
  match n, h with
  | m + 1, _ =>
    show natToBytesBEGo (m + 1) (m + 1) ≠ []
    simp [natToBytesBEGo]

theorem parseLen_derLen (n : Nat) (rest : List Nat) :
    parseLen (derLen n ++ rest) = some (n, rest) := by
  by_cases h : n < 128
  · simp [derLen, h, parseLen]
  · have hne : natToBytesBE n ≠ [] := natToBytesBE_ne_nil n (by omega)
    have hpos : 0 < (natToBytesBE n).length := List.length_pos.mpr hne
    simp only [derLen, h, if_false, List.cons_append, parseLen,
               Nat.add_sub_cancel_left]
    rw [if_neg (by omega), if_neg (by omega),
        if_neg (by simp only [List.length_append]; omega)]
    rw [List.take_left' rfl, List.drop_left' rfl, fromBytesBE_natToBytesBE]

theorem parseInt_derInt (c rest : List Nat) :
    parseInt (derInt c ++ rest) = some (c, rest) := by
  have h : derInt c ++ rest = 2 :: (derLen c.length ++ (c ++ rest)) := by
    simp [derInt]
  rw [h]
  simp only [parseInt, parseLen_derLen]
  rw [if_pos (by simp only [List.length_append]; omega)]
  rw [List.take_left' rfl, List.drop_left' rfl]

theorem decodeEcc_derEcc (r s : List Nat) :
    decodeEcc (derEcc r s) = some (r, s) := by
  have h : derEcc r s =
      48 :: (derLen (derInt r ++ derInt s).length ++ (derInt r ++ derInt s)) := by
    simp [derEcc]
  rw [h]
  simp only [decodeEcc, parseLen_derLen]
  rw [if_pos (Nat.le_refl _)]
  rw [List.take_length, List.drop_length]
  simp only [parseInt_derInt]
  have h2 : derInt s = derInt s ++ [] := by simp
  rw [h2, parseInt_derInt]
  simp

theorem fromBytesBE_from_bytes_be_unsigned (l : List Nat) :
    fromBytesBE (from_bytes_be_unsigned l) = fromBytesBE l := by
  match l with
  | [] => rfl
  | x :: rest =>
    simp only [from_bytes_be_unsigned]
    split
    · simp [fromBytesBE]
    · rfl

theorem computeDigest_not_specific (data : List Nat) (req : Option SignHash)
    (h : ∀ hh : Hash, req ≠ some (SignHash.specific hh)) :
    computeDigest data req = (.error .notSupported, 0) := by
  match req with
  | Option.none => rfl
  | some .any => rfl
  | some (.specific hh) => exact absurd rfl (h hh)

/-! ## The claims. -/

/-- C1: for every even-length raw signature byte sequence, the ASN.1
re-encoding splits it at the midpoint into R (first half) and S (second
half), serializes them as a two-element DER sequence of unsigned big-endian
integers, and this round-trips: decoding recovers exactly the normalized
(R, S) contents, whose integer values equal those of R and S, and
re-concatenating R and S reproduces the original raw bytes. -/
theorem asn1_reencode_roundtrip (sig : List Nat)
    (hbytes : ∀ b ∈ sig, b < 256) (heven : sig.length % 2 = 0) :
    decodeEcc (derEncodeEcc sig) =
      some (from_bytes_be_unsigned (sig.take (sig.length / 2)),
            from_bytes_be_unsigned (sig.drop (sig.length / 2))) ∧
    fromBytesBE (from_bytes_be_unsigned (sig.take (sig.length / 2))) =
      fromBytesBE (sig.take (sig.length / 2)) ∧
    fromBytesBE (from_bytes_be_unsigned (sig.drop (sig.length / 2))) =
      fromBytesBE (sig.drop (sig.length / 2)) ∧
    sig.take (sig.length / 2) ++ sig.drop (sig.length / 2) = sig :=
  ⟨decodeEcc_derEcc _ _,
   fromBytesBE_from_bytes_be_unsigned _,
   fromBytesBE_from_bytes_be_unsigned _,
   List.take_append_drop _ _⟩

/-- Witness for C1 at the concrete raw signature `[18, 129]`
(R = `[18]`, S = `[129]`; S gains a leading zero since its high bit is
set). -/
theorem asn1_reencode_roundtrip_witness :
    decodeEcc (derEncodeEcc [18, 129]) = some ([18], [0, 129]) ∧
    fromBytesBE [18] = fromBytesBE [18] ∧
    fromBytesBE [0, 129] = fromBytesBE [129] ∧
    ([18] : List Nat) ++ [129] = [18, 129] :=
  asn1_reencode_roundtrip [18, 129] (by decide) (by decide)

/-- C2: when the key's resolved policy algorithm is not an
asymmetric-signature family, `Sign::run` fails with `WrongKeyAlgorithm`
with zero digest invocations and zero signing-service invocations, for every
message and every signer. -/
theorem wrong_key_algorithm_no_calls (alg : Algorithm)
    (signer : List Nat → Except SignError (List Nat))
    (inputData : List Nat) (encodeAsn1 : Bool)
    (h : ∀ a, alg ≠ Algorithm.asymmetricSignature a) :
    signRun (.ok alg) signer inputData encodeAsn1 =
      (.err .wrongKeyAlgorithm, ⟨0, 0, []⟩) := by
  cases alg <;> first | rfl | exact absurd rfl (h _)

/-- Witness for C2 with a symmetric-cipher policy algorithm. -/
theorem wrong_key_algorithm_no_calls_witness :
    signRun (.ok .cipher) (fun _ => .error .serviceError) [104, 105] true =
      (.err .wrongKeyAlgorithm, ⟨0, 0, []⟩) :=
  wrong_key_algorithm_no_calls .cipher _ _ _ (fun _ h => nomatch h)

/-- C3: when the asymmetric-signature descriptor's hash requirement is a
wildcard or unspecified (not a specific named hash), `Sign::run` fails with
`NotSupported` with zero digest invocations and zero signing-service
invocations. -/
theorem wildcard_hash_not_supported (a : AsymmetricSignature)
    (signer : List Nat → Except SignError (List Nat))
    (inputData : List Nat) (encodeAsn1 : Bool)
    (h : ∀ hh : Hash, a.hash ≠ some (SignHash.specific hh)) :
    signRun (.ok (.asymmetricSignature a)) signer inputData encodeAsn1 =
      (.err .notSupported, ⟨0, 0, []⟩) := by
  have hcd := computeDigest_not_specific inputData a.hash h
  simp [signRun, hcd]

/-- Witness for C3 with the `EcdsaAny` descriptor (no hash requirement). -/
theorem wildcard_hash_not_supported_witness :
    signRun (.ok (.asymmetricSignature .ecdsaAny))
      (fun _ => .ok [1, 2, 3, 4]) [104, 105] true =
      (.err .notSupported, ⟨0, 0, []⟩) :=
  wildcard_hash_not_supported .ecdsaAny _ _ _ (fun _ h => nomatch h)

set_option maxRecDepth 100000 in
/-- C4: for every message, each supported hash algorithm produces a digest of
exactly 28/32/48/64 bytes via a single digest invocation, and the digests
match the reference values (FIPS 180-4 test vectors) on the empty message and
on the ASCII message "abc". -/
theorem digest_lengths_and_vectors :
    (∀ msg : List Nat,
      hash_data msg .sha224 = (.ok (sha224 msg), 1) ∧ (sha224 msg).length = 28) ∧
    (∀ msg : List Nat,
      hash_data msg .sha256 = (.ok (sha256 msg), 1) ∧ (sha256 msg).length = 32) ∧
    (∀ msg : List Nat,
      hash_data msg .sha384 = (.ok (sha384 msg), 1) ∧ (sha384 msg).length = 48) ∧
    (∀ msg : List Nat,
      hash_data msg .sha512 = (.ok (sha512 msg), 1) ∧ (sha512 msg).length = 64) ∧
    sha224 [] = [209, 74, 2, 140, 42, 58, 43, 201, 71, 97, 2, 187, 40, 130, 52, 196, 21, 162, 176, 31, 130, 142, 166, 42, 197, 179, 228, 47] ∧
    sha224 [97, 98, 99] = [35, 9, 125, 34, 52, 5, 216, 34, 134, 66, 164, 119, 189, 162, 85, 179, 42, 173, 188, 228, 189, 160, 179, 247, 227, 108, 157, 167] ∧
    sha256 [] = [227, 176, 196, 66, 152, 252, 28, 20, 154, 251, 244, 200, 153, 111, 185, 36, 39, 174, 65, 228, 100, 155, 147, 76, 164, 149, 153, 27, 120, 82, 184, 85] ∧
    sha256 [97, 98, 99] = [186, 120, 22, 191, 143, 1, 207, 234, 65, 65, 64, 222, 93, 174, 34, 35, 176, 3, 97, 163, 150, 23, 122, 156, 180, 16, 255, 97, 242, 0, 21, 173] ∧
    sha384 [] = [56, 176, 96, 167, 81, 172, 150, 56, 76, 217, 50, 126, 177, 177, 227, 106, 33, 253, 183, 17, 20, 190, 7, 67, 76, 12, 199, 191, 99, 246, 225, 218, 39, 78, 222, 191, 231, 111, 101, 251, 213, 26, 210, 241, 72, 152, 185, 91] ∧
    sha384 [97, 98, 99] = [203, 0, 117, 63, 69, 163, 94, 139, 181, 160, 61, 105, 154, 198, 80, 7, 39, 44, 50, 171, 14, 222, 209, 99, 26, 139, 96, 90, 67, 255, 91, 237, 128, 134, 7, 43, 161, 231, 204, 35, 88, 186, 236, 161, 52, 200, 37, 167] ∧
    sha512 [] = [207, 131, 225, 53, 126, 239, 184, 189, 241, 84, 40, 80, 214, 109, 128, 7, 214, 32, 228, 5, 11, 87, 21, 220, 131, 244, 169, 33, 211, 108, 233, 206, 71, 208, 209, 60, 93, 133, 242, 176, 255, 131, 24, 210, 135, 126, 236, 47, 99, 185, 49, 189, 71, 65, 122, 129, 165, 56, 50, 122, 249, 39, 218, 62] ∧
    sha512 [97, 98, 99] = [221, 175, 53, 161, 147, 97, 122, 186, 204, 65, 115, 73, 174, 32, 65, 49, 18, 230, 250, 78, 137, 169, 126, 162, 10, 158, 238, 230, 75, 85, 211, 154, 33, 146, 153, 42, 39, 79, 193, 168, 54, 186, 60, 35, 163, 254, 235, 189, 69, 77, 68, 35, 100, 60, 232, 14, 42, 154, 201, 79, 165, 76, 164, 159] := by
  refine ⟨fun msg => ⟨rfl, ?_⟩, fun msg => ⟨rfl, ?_⟩,
          fun msg => ⟨rfl, ?_⟩, fun msg => ⟨rfl, ?_⟩,
          by decide, by decide, by decide, by decide,
          by decide, by decide, by decide, by decide⟩
  · simp [sha224, hsWords, toBytesBE_length]
  · simp [sha256, hsWords, toBytesBE_length]
  · simp [sha384, hsWords, toBytesBE_length]
  · simp [sha512, hsWords, toBytesBE_length]

/-- C5: `computeDigest` (the hash-requirement match of `Sign::run` composed
with `hash_data`) fails with `NotSupported` and performs zero digest
invocations whenever the requirement is not one of the four supported
specific hashes — in particular for any unsupported specific tag and for the
wildcard tag. -/
theorem unsupported_hash_not_supported (data : List Nat) (req : Option SignHash)
    (h : ∀ hh ∈ supportedHashes, req ≠ some (SignHash.specific hh)) :
    computeDigest data req = (.error .notSupported, 0) := by
  match req with
  | Option.none => rfl
  | some .any => rfl
  | some (.specific hh) =>
    cases hh <;> first | rfl | exact absurd rfl (h _ (by decide))

/-- Witness for C5 at the unsupported tag MD5 and at the wildcard tag. -/
theorem unsupported_hash_not_supported_witness :
    computeDigest [1, 2, 3] (some (.specific .md5)) = (.error .notSupported, 0) ∧
    computeDigest [1, 2, 3] (some .any) = (.error .notSupported, 0) :=
  ⟨unsupported_hash_not_supported [1, 2, 3] _ (by decide),
   unsupported_hash_not_supported [1, 2, 3] _ (by decide)⟩

/-- C6: when the ASN.1 flag is false or the algorithm is not an
elliptic-curve scheme, the post-processing step returns the raw signature
unchanged (equivalently, re-encoding only ever applies when both hold). -/
theorem raw_passthrough (a : AsymmetricSignature) (encodeAsn1 : Bool)
    (sig : List Nat) (h : a.isEccAlg = false ∨ encodeAsn1 = false) :
    postProcess a encodeAsn1 sig = some sig := by
  rcases h with h | h <;> simp [postProcess, h]

/-- Witness for C6: an RSA-PSS signature is passed through even with the
ASN.1 flag set. -/
theorem raw_passthrough_witness :
    postProcess (.rsaPss (.specific .sha256)) true [9, 9, 9] = some [9, 9, 9] :=
  raw_passthrough _ _ _ (Or.inl rfl)

set_option maxRecDepth 100000 in
/-- C7: at a raw 996-byte signer output with ASN.1 encoding requested for an
ECDSA key, the DER encoding needs 1008 bytes, which does not fit the
1000-byte scratch buffer; `Sign::run` then panics on the `unwrap` of
`picky_asn1_der::to_bytes` instead of surfacing a typed internal encoding
error. -/
theorem buffer_overflow_panics :
    signRun (.ok (.asymmetricSignature (.ecdsa (.specific .sha256))))
      (fun _ => .ok (List.replicate 996 1)) [] true =
      (.panic, ⟨1, 1, []⟩) := by decide

set_option maxRecDepth 100000 in
/-- C8 counterexample: the claim as stated — "on any failure nothing of the
signature output is printed and a typed error is returned" — is false of the
code: at an ECDSA/SHA-256 key with ASN.1 requested and a signer returning a
1002-byte raw signature (DER encoding 1014 bytes, exceeding the 1000-byte
buffer), the run fails by panicking on the `unwrap`, printing nothing but
returning no typed error either. -/
theorem untyped_failure_counterexample :
    (signRun (.ok (.asymmetricSignature (.ecdsa (.specific .sha256))))
      (fun _ => .ok (List.replicate 1002 1)) [97] true).1 = .panic ∧
    (signRun (.ok (.asymmetricSignature (.ecdsa (.specific .sha256))))
      (fun _ => .ok (List.replicate 1002 1)) [97] true).2.stdout = [] ∧
    ∀ e : SignError,
      (signRun (.ok (.asymmetricSignature (.ecdsa (.specific .sha256))))
        (fun _ => .ok (List.replicate 1002 1)) [97] true).1 ≠ .err e := by
  have h : signRun (.ok (.asymmetricSignature (.ecdsa (.specific .sha256))))
      (fun _ => .ok (List.replicate 1002 1)) [97] true = (.panic, ⟨1, 1, []⟩) := by
    decide
  refine ⟨by rw [h], by rw [h], fun e => by rw [h]; exact fun hc => nomatch hc⟩

/-- C8 (amended): a base64 signature line is written to standard output if
and only if the run succeeds; on every failure nothing is printed, and the
failure is either a typed error or — only on the ASN.1 re-encoding `unwrap` —
a panic with no typed error. -/
theorem output_iff_success_or_panic (attrRes : Except SignError Algorithm)
    (signer : List Nat → Except SignError (List Nat))
    (inputData : List Nat) (encodeAsn1 : Bool) :
    (∃ s, (signRun attrRes signer inputData encodeAsn1).1 = .ok s ∧
          (signRun attrRes signer inputData encodeAsn1).2.stdout = [b64encode s]) ∨
    ((signRun attrRes signer inputData encodeAsn1).2.stdout = [] ∧
     ((∃ e, (signRun attrRes signer inputData encodeAsn1).1 = .err e) ∨
      (signRun attrRes signer inputData encodeAsn1).1 = .panic)) := by
  rcases attrRes with e | alg
  · exact Or.inr ⟨rfl, Or.inl ⟨.serviceError, rfl⟩⟩
  · cases alg
    case asymmetricSignature a =>
      rcases hcd : computeDigest inputData a.hash with ⟨r, hc⟩
      rcases r with e | dg
      · right
        exact ⟨by simp [signRun, hcd], Or.inl ⟨e, by simp [signRun, hcd]⟩⟩
      · rcases hs : signer dg with e | sig
        · right
          exact ⟨by simp [signRun, hcd, hs],
                 Or.inl ⟨.serviceError, by simp [signRun, hcd, hs]⟩⟩
        · rcases hp : postProcess a encodeAsn1 sig with _ | enc
          · right
            exact ⟨by simp [signRun, hcd, hs, hp],
                   Or.inr (by simp [signRun, hcd, hs, hp])⟩
          · left
            exact ⟨enc, by simp [signRun, hcd, hs, hp],
                   by simp [signRun, hcd, hs, hp]⟩
    all_goals exact Or.inr ⟨rfl, Or.inl ⟨.wrongKeyAlgorithm, rfl⟩⟩

/-- C9: for a raw signature of odd length n, the split is total: R receives
the first n / 2 bytes, S the remaining n / 2 + 1 bytes, and the DER encoding
of the split is well-formed (it decodes back), with no error raised for the
odd length. -/
theorem odd_split_total (sig : List Nat) (hodd : sig.length % 2 = 1) :
    (sig.take (sig.length / 2)).length = sig.length / 2 ∧
    (sig.drop (sig.length / 2)).length = sig.length / 2 + 1 ∧
    decodeEcc (derEncodeEcc sig) =
      some (from_bytes_be_unsigned (sig.take (sig.length / 2)),
            from_bytes_be_unsigned (sig.drop (sig.length / 2))) := by
  refine ⟨?_, ?_, decodeEcc_derEcc _ _⟩
  · simp [List.length_take]; omega
  · simp [List.length_drop]; omega

/-- Witness for C9 at the odd-length raw signature `[1, 2, 3]`. -/
theorem odd_split_total_witness :
    (([1, 2, 3] : List Nat).take 1).length = 1 ∧
    (([1, 2, 3] : List Nat).drop 1).length = 2 ∧
    decodeEcc (derEncodeEcc [1, 2, 3]) = some ([1], [2, 3]) :=
  odd_split_total [1, 2, 3] (by decide)

/-- C10: `hash_data` is deterministic — two runs on the same message with the
same supported hash algorithm return identical results. -/
theorem hash_data_deterministic (m1 m2 : List Nat) (a1 a2 : Hash)
    (hm : m1 = m2) (ha : a1 = a2) (hsup : a1 ∈ supportedHashes) :
    hash_data m1 a1 = hash_data m2 a2 := by
  subst hm; subst ha; rfl

/-- Witness for C10 at the message `[1, 2]` and SHA-256. -/
theorem hash_data_deterministic_witness :
    hash_data [1, 2] .sha256 = hash_data [1, 2] .sha256 :=
  hash_data_deterministic [1, 2] [1, 2] .sha256 .sha256 rfl rfl (by decide)

end ParsecSign
